import Mathlib

/-!
Verification of the ArtPop imaging pipeline (artpop/image/imager.py and
artpop/util.py) against its specification.

Modelling conventions.  numpy float arithmetic is modelled over the reals;
pixel coordinates handed to the rasterizer are modelled over the rationals
(the histogram binning is exact arithmetic on them).  A 2-D numpy array is a
shape (rows, cols) together with its entries as a function of the row and
column index.  astropy units are erased: every quantity is carried in the
fixed unit the code converts it to (seconds, angstrom, cm^2, arcsec), so the
unit conversions to those units are the identity and the code's unit
assertions hold trivially.  The seeded random generator is modelled as an
oracle supplying the realized noise draws.  Python attribute mutation
(setattr on the caller's source) is modelled by state passing: each observe
function returns the updated Source next to its Observation.
-/

namespace ArtPop

/-- A 2-D numpy array: an explicit shape (rows, cols) plus the entries as a
function of row index and column index. -/
structure Image where
  rows : ℕ
  cols : ℕ
  data : ℕ → ℕ → ℝ

/-- Bin assignment of fast_histogram.histogram2d on one axis, for the range
[0, nbins - 1] with nbins equal-width bins — exactly the range and bin count
Imager.inject_stars passes.  fast_histogram's in-range guard is half-open,
xmin ≤ tx < xmax (the bin index is the unclamped integer cast of
(tx - xmin) nx / (xmax - xmin), so tx = xmax would index out of bounds; the
library documents this deviation from numpy): a coordinate with
0 ≤ c < nbins - 1 goes to bin ⌊c / (nbins - 1) * nbins⌋, any other
coordinate — the range's right edge included, and every coordinate when the
range has zero width — is dropped (none). -/
def binIndex (c : ℚ) (nbins : ℕ) : Option ℕ :=
  if 0 ≤ c ∧ c < (nbins : ℚ) - 1 then
    some (Int.toNat ⌊c / ((nbins : ℚ) - 1) * nbins⌋)
  else none

/-- numpy boolean-mask indexing arr[mask]; a mask of none keeps everything
(inject_stars treats mask=None that way). -/
def maskFilter {α : Type} (mask : Option (List Bool)) (l : List α) : List α :=
  match mask with
  | none => l
  | some m => ((l.zip m).filter (fun p => p.2)).map (fun p => p.1)

/-- Imager.inject_stars (imager.py lines 141-174): the weighted 2-D histogram
histogram2d(x, y, bins = xy_dim, weights = signal,
range = [[0, xy_dim.1 - 1], [0, xy_dim.2 - 1]]), transposed.  The transpose
makes the first axis y (rows) and the second x (columns): the result has
xy_dim.2 rows and xy_dim.1 columns, and entry (r, c) collects the weights of
the points whose x falls in bin c and whose y falls in bin r. -/
def inject_stars (x y : List ℚ) (signal : List ℝ) (xy_dim : ℕ × ℕ)
    (mask : Option (List Bool)) : Image :=
  let pts := maskFilter mask (x.zip (y.zip signal))
  { rows := xy_dim.2
    cols := xy_dim.1
    data := fun r c =>
      ((pts.filter (fun p =>
          decide (binIndex p.1 xy_dim.1 = some c) &&
          decide (binIndex p.2.1 xy_dim.2 = some r))).map
        (fun p => p.2.2)).sum }

/-- A coordinate that is a whole number 0 ≤ k < nbins - 1 lands in bin k:
inside fast_histogram's half-open range the binning of inject_stars places
integer-valued coordinates exactly, with no shift. -/
theorem binIndex_natCast (nbins k : ℕ) (hk : k < nbins - 1) :
    binIndex (k : ℚ) nbins = some k := by
  have h2 : 2 ≤ nbins := by omega
  have hsub : ((nbins - 1 : ℕ) : ℚ) = (nbins : ℚ) - 1 := by
    push_cast [Nat.cast_sub (by omega : 1 ≤ nbins)]
    ring
  have hklt : (k : ℚ) < (nbins : ℚ) - 1 := by
    rw [← hsub]
    exact_mod_cast hk
  have hcond : 0 ≤ (k : ℚ) ∧ (k : ℚ) < (nbins : ℚ) - 1 :=
    ⟨by exact_mod_cast Nat.zero_le k, hklt⟩
  have hpos : (0 : ℚ) < (nbins : ℚ) - 1 := by
    have : (2 : ℚ) ≤ (nbins : ℚ) := by exact_mod_cast h2
    linarith
  have hfloor : ⌊(k : ℚ) / ((nbins : ℚ) - 1) * nbins⌋ = (k : ℤ) := by
    have hval : (k : ℚ) / ((nbins : ℚ) - 1) * nbins
        = (k : ℚ) + (k : ℚ) / ((nbins : ℚ) - 1) := by
      field_simp
      ring
    have hlow : (0 : ℚ) ≤ (k : ℚ) / ((nbins : ℚ) - 1) :=
      div_nonneg (by exact_mod_cast Nat.zero_le k) (le_of_lt hpos)
    have hhigh : (k : ℚ) / ((nbins : ℚ) - 1) < 1 :=
      (div_lt_one hpos).mpr hklt
    rw [hval, Int.floor_eq_iff]
    constructor
    · push_cast
      linarith
    · push_cast
      linarith
  rw [binIndex, if_pos hcond, hfloor, Int.toNat_natCast]

/-- Claim C3, as amended: a single input point with whole-number coordinates
(x0, y0), 0 ≤ x0 < N - 1 and 0 ≤ y0 < N - 1 — strictly inside
fast_histogram's half-open range — and weight w, rasterized onto an (N, N)
grid (N odd), yields an image that is w at row y0, column x0 and zero at
every other pixel: exact placement, no spillover.  A coordinate equal to
N - 1 lies on the range's right edge and the point is silently dropped
(the counterexample to the original claim). -/
theorem inject_stars_single_point (N x0 y0 : ℕ) (w : ℝ) (_hN : Odd N)
    (hx : x0 < N - 1) (hy : y0 < N - 1) :
    ∀ r c, (inject_stars [(x0 : ℚ)] [(y0 : ℚ)] [w] (N, N) none).data r c
      = if r = y0 ∧ c = x0 then w else 0 := by
  intro r c
  have hbx := binIndex_natCast N x0 hx
  have hby := binIndex_natCast N y0 hy
  simp only [inject_stars, maskFilter, List.zip_cons_cons, List.zip_nil_right,
    List.filter, hbx, hby]
  by_cases hc : c = x0
  · by_cases hr : r = y0
    · subst hc hr
      simp
    · have : ¬ (some y0 = some r) := by
        simp
        omega
      simp [this, hr]
  · have : ¬ (some x0 = some c) := by
      simp
      omega
    simp [this, hc]

/-- A closed instance of amended claim C3: on a 3 × 3 grid, the interior
point (1, 1) with weight 2 produces an image whose pixel (row 1, column 1)
is 2 and whose pixel (0, 0) is 0. -/
theorem inject_stars_single_point_witness :
    (inject_stars [(1 : ℚ)] [(1 : ℚ)] [(2 : ℝ)] (3, 3) none).data 1 1 = 2
    ∧ (inject_stars [(1 : ℚ)] [(1 : ℚ)] [(2 : ℝ)] (3, 3) none).data 0 0 = 0 := by
  have h := inject_stars_single_point 3 1 1 (2 : ℝ) (by decide)
    (by decide) (by decide)
  constructor
  · simpa using h 1 1
  · simpa using h 0 0

/-- Claim C3, counterexample: on a 3 × 3 grid the point (1, 2) has
y0 = 2 = N - 1, the right edge of fast_histogram's half-open range, so the
star is silently dropped: the pixel (row 2, column 1), which the claim says
holds the weight 2, is 0 instead. -/
theorem inject_stars_edge_dropped :
    (inject_stars [(1 : ℚ)] [(2 : ℚ)] [(2 : ℝ)] (3, 3) none).data 2 1 = 0
    ∧ (0 : ℝ) ≠ 2 := by
  constructor
  · have hb2 : binIndex (2 : ℚ) 3 = none := by norm_num [binIndex]
    simp [inject_stars, maskFilter, hb2]
  · norm_num

/-- The smooth-model capability of a Source: an analytic light profile with
one settable amplitude-like parameter.  Evaluating the Python callable
smooth_model(x, y) is profile amplitude x y; setattr on the parameter is
modelled by replacing the amplitude field. -/
structure SmoothModel where
  amplitude : ℝ
  profile : ℝ → ℝ → ℝ → ℝ

/-- The external Source object as the imaging pipeline consumes it (spec
section 6): per-star pixel coordinates x and y, per-band per-star magnitude
arrays mags, grid dimensions xy_dim, pixel scale in arcsec per pixel, the
optional smooth model, the optional integrated-magnitude accessor sp
(sp.mag_integrated_component), and the method mag_to_image_amplitude, whose
value is the triple (surface brightness mu_e, image-unit amplitude,
amplitude parameter name). -/
structure Source where
  x : List ℚ
  y : List ℚ
  mags : String → List ℝ
  xy_dim : ℕ × ℕ
  pixel_scale : ℝ
  smooth_model : Option SmoothModel
  sp : Option (String → ℝ)
  mag_to_image_amplitude : ℝ → ℝ → ℝ × ℝ × String

/-- An argument passed where a Source is expected: Python is dynamically
typed, so observe may receive an object whose class does not derive from
Source.  Imager._check_source separates the two by inspecting the method
resolution order of the argument's class. -/
inductive PyVal where
  | source (s : Source)
  | notSource (typeName : String)

/-- Imager._check_source (imager.py lines 131-134): an error for any object
that does not derive from Source, before anything else runs. -/
def check_source : PyVal → Except String Source
  | .source s => .ok s
  | .notSource t => .error (t ++ " is not a valid Source object.")

/-- IdealObservation (imager.py lines 63-79). -/
structure IdealObservation where
  image : Image
  zpt : ℝ
  bandpass : String

/-- ArtObservation (imager.py lines 82-116).  mag_error is the optional
per-star magnitude-error array (or none). -/
structure ArtObservation where
  raw_counts : Image
  src_counts : Image
  sky_counts : ℝ
  image : Image
  var_image : Image
  calibration : ℝ
  zpt : ℝ
  bandpass : String
  exptime : ℝ
  mag_error : Option (List ℝ)

/-- The AB-magnitude zero point mAB_0 (imager.py line 119). -/
noncomputable def mAB_0 : ℝ := 48.6

/-- fnu_from_AB_mag (imager.py lines 120-125): flux density in
erg / s / Hz / cm^2 from an AB magnitude. -/
noncomputable def fnu_from_AB_mag (mag : ℝ) : ℝ :=
  (10 : ℝ) ^ ((mag + mAB_0) / (-2.5))

/-- Planck's constant in erg s, astropy's constants.h.to('erg s'). -/
noncomputable def hPlanck : ℝ := 6.62607015e-27

/-- The speed of light in angstrom / s, astropy's
constants.c.to('angstrom/s'). -/
noncomputable def cLight : ℝ := 2.99792458e18

/-- Modelled from the spec: astropy.convolution.convolve_fft with
normalize_kernel=True and boundary='wrap', the call Imager.apply_seeing
makes — periodic (circular) convolution of the image with the kernel scaled
to unit sum.  convolve_fft is an external collaborator; all the claims use
of it is that it returns an array of the input image's shape, which holds
below by construction (the centering convention of the wrapped index
arithmetic is immaterial to that). -/
noncomputable def convolve_fft (image psf : Image) : Image :=
  let ksum := ∑ i ∈ Finset.range psf.rows, ∑ j ∈ Finset.range psf.cols,
    psf.data i j
  { rows := image.rows
    cols := image.cols
    data := fun r c =>
      ∑ i ∈ Finset.range psf.rows, ∑ j ∈ Finset.range psf.cols,
        psf.data i j / ksum *
          image.data ((r + i) % image.rows) ((c + j) % image.cols) }

/-- Imager.apply_seeing (imager.py lines 176-206): the input image unchanged
when psf is None, otherwise the normalized FFT convolution. -/
noncomputable def apply_seeing (image : Image) (psf : Option Image) : Image :=
  match psf with
  | none => image
  | some k => convolve_fft image k

/-- IdealImager.inject_smooth_model (imager.py lines 227-259): identity when
the source has no smooth model; otherwise the integrated magnitude from
source.sp (the code reads source.sp unconditionally on this branch, so a
source with a smooth model is presupposed to carry sp; a missing sp is
modelled as the zero accessor), converted through mag_to_image_amplitude,
whose image-unit amplitude amp_image is set on the smooth model (a mutation
of the caller's object, modelled by returning the updated Source), and the
profile evaluated on the pixel grid (column index as x, row index as y) is
added to the image. -/
noncomputable def ideal_inject_smooth_model (image : Image) (source : Source)
    (bandpass : String) (zpt : ℝ) : Image × Source :=
  match source.smooth_model with
  | none => (image, source)
  | some sm =>
      let mag := (source.sp.getD (fun _ => 0)) bandpass
      let res := source.mag_to_image_amplitude mag zpt
      let sm2 : SmoothModel := { sm with amplitude := res.2.1 }
      ({ image with data := fun r c =>
          image.data r c + sm2.profile sm2.amplitude (c : ℝ) (r : ℝ) },
       { source with smooth_model := some sm2 })

/-- IdealImager.observe after the source-type check (imager.py lines
286-292): per-star flux 10^(0.4 (zpt - mag)), rasterization, smooth-model
injection, PSF convolution, wrapped into the observation, with the source
state threaded through the smooth-model mutation. -/
noncomputable def ideal_observe_run (source : Source) (bandpass : String)
    (psf : Option Image) (zpt : ℝ) (mask : Option (List Bool)) :
    IdealObservation × Source :=
  let flux := (source.mags bandpass).map (fun m => (10 : ℝ) ^ (0.4 * (zpt - m)))
  let image := inject_stars source.x source.y flux source.xy_dim mask
  let p := ideal_inject_smooth_model image source bandpass zpt
  let image2 := apply_seeing p.1 psf
  ({ image := image2, zpt := zpt, bandpass := bandpass }, p.2)

/-- IdealImager.observe (imager.py lines 261-292): the source-type check,
then the noise-free pipeline.  No bandpass check occurs here: IdealImager
carries no filter set and observe reads source.mags[bandpass] directly. -/
noncomputable def IdealImager.observe (arg : PyVal) (bandpass : String)
    (psf : Option Image) (zpt : ℝ) (mask : Option (List Bool)) :
    Except String (IdealObservation × Source) :=
  match check_source arg with
  | .error e => .error e
  | .ok s => .ok (ideal_observe_run s bandpass psf zpt mask)

/-- ArtImager calibration state (imager.py constructor, lines 355-447).
filters is the configured filter list.  zpt_inst = some z puts the imager in
empirical mode with instrumental zero point z per filter (the constructor
sets filters to the keys of the zpt_inst dictionary); zpt_inst = none is
radiometric mode, with per-filter width dlam and effective wavelength
lam_eff in angstrom.  read_noise is in electrons, gain in electrons per ADU,
diameter in meters. -/
structure ArtImager where
  filters : List String
  read_noise : ℝ
  gain : ℝ
  efficiency : String → ℝ
  transparency : ℝ
  diameter : ℝ
  dlam : String → ℝ
  lam_eff : String → ℝ
  zpt_inst : Option (String → ℝ)

/-- Imager._check_bandpass (imager.py lines 136-139) as the predicate the
artificial pipeline tests: membership in the configured filter list. -/
def check_bandpass (filters : List String) (bandpass : String) : Prop :=
  bandpass ∈ filters

/-- ArtImager.area (imager.py lines 449-453) converted to cm^2 as
mag_to_counts uses it: the diameter is held in meters, so
area.to('cm2') = pi (100 d / 2)^2. -/
noncomputable def ArtImager.area_cm2 (im : ArtImager) : ℝ :=
  Real.pi * (im.diameter * 100 / 2) ^ 2

/-- ArtImager.mag_to_counts (imager.py lines 467-503) for one magnitude (the
code maps the same arithmetic elementwise over a magnitude array).
Empirical mode (zpt_inst given): counts = 10^(0.4 (zpt_inst - mag)) *
exptime.  Radiometric mode: photon flux (dlam / lam_eff) * fnu / h, times
aperture area and exposure time (a dimensionless electron count, so the
code's unit assertion holds), times efficiency and transparency, divided by
the gain. -/
noncomputable def ArtImager.mag_to_counts (im : ArtImager) (mag : ℝ)
    (bandpass : String) (exptime : ℝ) : ℝ :=
  match im.zpt_inst with
  | none =>
      let fnu := fnu_from_AB_mag mag
      let photon_flux := (im.dlam bandpass / im.lam_eff bandpass) * fnu / hPlanck
      let counts := photon_flux * im.area_cm2 * exptime
      counts * (im.efficiency bandpass * im.transparency) / im.gain
  | some z => (10 : ℝ) ^ (0.4 * (z bandpass - mag)) * exptime

/-- ArtImager.sb_to_counts_per_pixel (imager.py lines 505-548).  Empirical
mode: 10^(0.4 (zpt_inst - sb)) * exptime (the pixel scale is not used on
this branch).  Radiometric mode: the surface-brightness flux density scaled
by the squared pixel scale (arcsec per pixel), converted to photon flux at
the photon energy E_lam = h c / lam_eff, times exposure time and aperture
area, times efficiency and transparency, divided by the gain. -/
noncomputable def ArtImager.sb_to_counts_per_pixel (im : ArtImager) (sb : ℝ)
    (bandpass : String) (exptime : ℝ) (pixel_scale : ℝ) : ℝ :=
  match im.zpt_inst with
  | none =>
      let fnu_per_square_arcsec := fnu_from_AB_mag sb
      let E_lam := hPlanck * cLight / im.lam_eff bandpass
      let flam_per_square_arcsec :=
        fnu_per_square_arcsec * cLight / (im.lam_eff bandpass) ^ 2
      let flam_per_pixel := flam_per_square_arcsec * pixel_scale ^ 2
      let photon_flux_per_sq_pixel := flam_per_pixel * im.dlam bandpass / E_lam
      let counts_per_pixel := photon_flux_per_sq_pixel * exptime * im.area_cm2
      counts_per_pixel * (im.efficiency bandpass * im.transparency) / im.gain
  | some z => (10 : ℝ) ^ (0.4 * (z bandpass - sb)) * exptime

/-- ArtImager.calibration (imager.py lines 550-582).  Empirical mode:
10^(0.4 (zpt - zpt_inst)) / exptime.  Radiometric mode: 10^(0.4 zpt) *
10^(0.4 mAB_0) divided by (dlam / lam_eff) / h, exposure time, area and
efficiency * transparency, times the gain. -/
noncomputable def ArtImager.calibration (im : ArtImager) (bandpass : String)
    (exptime : ℝ) (zpt : ℝ) : ℝ :=
  match im.zpt_inst with
  | none =>
      let lam_factor := (im.dlam bandpass / im.lam_eff bandpass) / hPlanck
      (10 : ℝ) ^ (0.4 * zpt) * (10 : ℝ) ^ (0.4 * mAB_0) / lam_factor / exptime
        / im.area_cm2 / (im.efficiency bandpass * im.transparency) * im.gain
  | some z => (10 : ℝ) ^ (0.4 * (zpt - z bandpass)) / exptime

/-- ArtImager.inject_smooth_model (imager.py lines 584-624): identity when
the source has no smooth model; otherwise the component magnitude (the
integrated accessor source.sp when present, else float() of the per-band
magnitude array, defined for a one-entry array and modelled by its first
entry), converted through mag_to_image_amplitude; its surface-brightness
component amp goes through sb_to_counts_per_pixel and the result is set on
the smooth model's amplitude parameter (a mutation of the caller's object,
modelled by returning the updated Source); the profile evaluated on the
pixel grid (column index as x, row index as y) is added to the image. -/
noncomputable def ArtImager.inject_smooth_model (im : ArtImager)
    (image : Image) (source : Source) (bandpass : String) (exptime zpt : ℝ) :
    Image × Source :=
  match source.smooth_model with
  | none => (image, source)
  | some sm =>
      let mag := match source.sp with
                 | some f => f bandpass
                 | none => (source.mags bandpass).headD 0
      let res := source.mag_to_image_amplitude mag zpt
      let amp_counts :=
        im.sb_to_counts_per_pixel res.1 bandpass exptime source.pixel_scale
      let sm2 : SmoothModel := { sm with amplitude := amp_counts }
      ({ image with data := fun r c =>
          image.data r c + sm2.profile sm2.amplitude (c : ℝ) (r : ℝ) },
       { source with smooth_model := some sm2 })

/-- ArtImager.import_bkg (imager.py lines 654-657): the background file's
array scaled by the exposure time in seconds. -/
noncomputable def import_bkg (bkg : Image) (exptime : ℝ) : Image :=
  { bkg with data := fun r c => bkg.data r c * exptime }

/-- The background compositing of ArtImager.observe (imager.py lines
699-708): a window of shape xy_dim anchored at ori — the given bkg_ori, or
the centered origin (temp.shape // 2 - xy_dim // 2) — is cut from the scaled
background and added into the source-count image in place.  The code slices
a window of shape (xy_dim.1, xy_dim.2) while the source-count image has
shape (xy_dim.2, xy_dim.1); on the square grids numpy accepts for the
addition the two agree, and the model adds the window entrywise, keeping the
source image's shape. -/
noncomputable def add_bkg_cutout (src : Image) (temp : Image)
    (xy_dim : ℕ × ℕ) (bkg_ori : Option (ℕ × ℕ)) : Image :=
  let half := (xy_dim.1 / 2, xy_dim.2 / 2)
  let ori := match bkg_ori with
             | none => (temp.rows / 2 - half.1, temp.cols / 2 - half.2)
             | some o => o
  { src with data := fun r c => src.data r c + temp.data (ori.1 + r) (ori.2 + c) }

/-- The per-Imager seeded random generator, modelled as an oracle for the
realized draws: poisson gives the realized numpy rng.poisson field for a
given mean field (numpy returns an array of the mean array's shape), normal
the realized rng.normal(scale = read_noise / gain) read-noise field. -/
structure NoiseOracle where
  poisson : (ℕ → ℕ → ℝ) → ℕ → ℕ → ℝ
  normal : ℕ → ℕ → ℝ

/-- The in-place clip of ArtImager.observe's no-sky branch (imager.py line
720): src_counts[src_counts < 0] = 0. -/
noncomputable def clip_neg (image : Image) : Image :=
  { image with data := fun r c =>
      if image.data r c < 0 then 0 else image.data r c }

/-- The pre-noise stage of ArtImager.observe (imager.py lines 694-711):
magnitude-to-counts conversion of the per-star magnitude array,
rasterization, smooth-model injection, optional background compositing and
PSF convolution, with the source state threaded through the smooth-model
mutation. -/
noncomputable def ArtImager.pre_noise_counts (im : ArtImager) (source : Source)
    (bandpass : String) (exptime zpt : ℝ) (mask : Option (List Bool))
    (psf : Option Image) (bkg : Option Image) (bkg_ori : Option (ℕ × ℕ)) :
    Image × Source :=
  let counts := (source.mags bandpass).map
    (fun m => im.mag_to_counts m bandpass exptime)
  let src0 := inject_stars source.x source.y counts source.xy_dim mask
  let p := im.inject_smooth_model src0 source bandpass exptime zpt
  let src1 := match bkg with
              | none => p.1
              | some b =>
                  add_bkg_cutout p.1 (import_bkg b exptime) source.xy_dim bkg_ori
  (apply_seeing src1 psf, p.2)

/-- The noise, calibration and assembly tail of ArtImager.observe
(imager.py lines 723-749), on a non-Windows platform (the primary model;
the Normal substitute is an explicitly documented 32-bit-platform
workaround): raw counts are the Poisson draw of
(src_counts + sky_counts) * gain divided by the gain, plus the read-noise
field when read_noise > 0; the calibrated image is
(raw - sky_counts) * calibration; the variance image is
raw + (read_noise / gain)^2. -/
noncomputable def ArtImager.noise_tail (im : ArtImager) (rng : NoiseOracle)
    (src_counts : Image) (sky_counts : ℝ) (bandpass : String)
    (exptime zpt : ℝ) (mag_error : Option (List ℝ)) : ArtObservation :=
  let raw0 : Image :=
    { src_counts with
      data := fun r c =>
        rng.poisson (fun i j => (src_counts.data i j + sky_counts) * im.gain) r c / im.gain }
  let raw : Image :=
    if 0 < im.read_noise then
      { raw0 with data := fun r c => raw0.data r c + rng.normal r c }
    else raw0
  let cali := im.calibration bandpass exptime zpt
  { raw_counts := raw
    src_counts := src_counts
    sky_counts := sky_counts
    image := { raw with data := fun r c => (raw.data r c - sky_counts) * cali }
    var_image :=
      { raw with
        data := fun r c => raw.data r c + (im.read_noise / im.gain) ^ 2 }
    calibration := cali
    zpt := zpt
    bandpass := bandpass
    exptime := exptime
    mag_error := mag_error }

/-- ArtImager.observe after its checks (imager.py lines 693-749): the
pre-noise image, then the sky branch — sky surface brightness given: sky
counts per pixel via sb_to_counts_per_pixel and the magnitude-error
estimate 2.5 log10(1 + n_s) computed from the per-star counts array;
absent: negative pixels clipped, zero sky, no magnitude error — then the
noise and calibration tail. -/
noncomputable def ArtImager.observe_run (im : ArtImager) (rng : NoiseOracle)
    (source : Source) (bandpass : String) (exptime : ℝ) (sky_sb : Option ℝ)
    (psf : Option Image) (zpt : ℝ) (mask : Option (List Bool))
    (bkg : Option Image) (bkg_ori : Option (ℕ × ℕ)) : ArtObservation × Source :=
  let counts := (source.mags bandpass).map
    (fun m => im.mag_to_counts m bandpass exptime)
  let p := im.pre_noise_counts source bandpass exptime zpt mask psf bkg bkg_ori
  match sky_sb with
  | some sb =>
      let sky_counts := im.sb_to_counts_per_pixel sb bandpass exptime source.pixel_scale
      let mag_error := counts.map (fun c =>
        2.5 * Real.logb 10 (1 +
          Real.sqrt (im.read_noise ^ 2 + sky_counts * im.gain + c * im.gain)
            / (c * im.gain)))
      (im.noise_tail rng p.1 sky_counts bandpass exptime zpt (some mag_error), p.2)
  | none =>
      (im.noise_tail rng (clip_neg p.1) 0 bandpass exptime zpt none, p.2)

/-- ArtImager.observe (imager.py lines 660-749): _check_bandpass, then
_check_source, then the pipeline. -/
noncomputable def ArtImager.observe (im : ArtImager) (rng : NoiseOracle)
    (arg : PyVal) (bandpass : String) (exptime : ℝ) (sky_sb : Option ℝ)
    (psf : Option Image) (zpt : ℝ) (mask : Option (List Bool))
    (bkg : Option Image) (bkg_ori : Option (ℕ × ℕ)) :
    Except String (ArtObservation × Source) :=
  if bandpass ∈ im.filters then
    match check_source arg with
    | .error e => .error e
    | .ok s =>
        .ok (im.observe_run rng s bandpass exptime sky_sb psf zpt mask bkg bkg_ori)
  else .error (bandpass ++ " filter properties were not provided.")

/-- ArtImager.observe_background (imager.py lines 751-797): the noise and
calibration tail on a background-only cutout (no rasterization, no
smooth-model injection); its sky branch computes no magnitude error, its
no-sky branch clips, and the returned mag_error is always none.  The code's
xy_dim parameter is unused there. -/
noncomputable def ArtImager.observe_background (im : ArtImager)
    (rng : NoiseOracle) (bkg : Image) (bandpass : String) (exptime : ℝ)
    (_xy_dim : ℕ × ℕ) (pixel_scale : ℝ) (sky_sb : Option ℝ)
    (psf : Option Image) (zpt : ℝ) : Except String ArtObservation :=
  if bandpass ∈ im.filters then
    let src0 := apply_seeing (import_bkg bkg exptime) psf
    match sky_sb with
    | some sb =>
        .ok (im.noise_tail rng src0
          (im.sb_to_counts_per_pixel sb bandpass exptime pixel_scale)
          bandpass exptime zpt none)
    | none => .ok (im.noise_tail rng (clip_neg src0) 0 bandpass exptime zpt none)
  else .error (bandpass ++ " filter properties were not provided.")

/-- A minimal concrete Source: no stars, no smooth model, a 1 x 1 grid. -/
noncomputable def srcEmpty : Source :=
  { x := []
    y := []
    mags := fun _ => []
    xy_dim := (1, 1)
    pixel_scale := 1
    smooth_model := none
    sp := none
    mag_to_image_amplitude := fun _ _ => (0, 0, "amplitude") }

/-- A concrete empirical-mode imager: the single filter F with instrumental
zero point 25, zero read noise, unit gain (dlam and lam_eff are None in
empirical mode and never read; the model carries zero functions there). -/
noncomputable def imF : ArtImager :=
  { filters := ["F"]
    read_noise := 0
    gain := 1
    efficiency := fun _ => 1
    transparency := 1
    diameter := 10
    dlam := fun _ => 0
    lam_eff := fun _ => 0
    zpt_inst := some (fun _ => 25) }

/-- A concrete noise oracle — one realization of the seeded generator: the
Poisson draw returns its mean field, the read-noise field is zero. -/
noncomputable def rngId : NoiseOracle :=
  { poisson := fun f => f
    normal := fun _ _ => 0 }

/-- Claim C1, as amended: the ideal pipeline's observe validates the source
type before any computation — a non-Source argument yields the type error —
but performs no bandpass-membership validation at all: with a Source
argument it proceeds to the full pipeline for every bandpass string
whatsoever (IdealImager carries no configured filter set and never invokes
_check_bandpass; only the artificial pipeline does). -/
theorem ideal_observe_checks_source_only :
    (∀ t bandpass psf zpt mask,
      IdealImager.observe (PyVal.notSource t) bandpass psf zpt mask
        = Except.error (t ++ " is not a valid Source object."))
    ∧ ∀ s bandpass psf zpt mask,
      IdealImager.observe (PyVal.source s) bandpass psf zpt mask
        = Except.ok (ideal_observe_run s bandpass psf zpt mask) :=
  ⟨fun _ _ _ _ _ => rfl, fun _ _ _ _ _ => rfl⟩

/-- Claim C1, counterexample: observing a valid Source through the ideal
pipeline with bandpass "UNCONFIGURED" — a bandpass in no configured filter
set — succeeds instead of raising: no bandpass-membership validation
happens before (or after) the magnitude-to-flux conversion and
rasterization. -/
theorem ideal_observe_no_bandpass_check :
    IdealImager.observe (PyVal.source srcEmpty) "UNCONFIGURED" none 27 none
      = Except.ok (ideal_observe_run srcEmpty "UNCONFIGURED" none 27 none) := rfl

/-- Claim C2: in empirical mode, for every bandpass in the configured filter
set, every magnitude and every positive exposure time, the counts returned
by mag_to_counts satisfy mag = zpt_inst - 2.5 log10(counts / exptime): the
magnitude-to-counts conversion composed with its logarithmic inverse at the
instrumental zero point recovers the original magnitude. -/
theorem mag_to_counts_round_trip (im : ArtImager) (z : String → ℝ)
    (bandpass : String) (mag exptime : ℝ) (hz : im.zpt_inst = some z)
    (_hb : bandpass ∈ im.filters) (ht : 0 < exptime) :
    z bandpass
      - 2.5 * Real.logb 10 (im.mag_to_counts mag bandpass exptime / exptime)
      = mag := by
  have ht' : exptime ≠ 0 := ne_of_gt ht
  simp only [ArtImager.mag_to_counts, hz]
  rw [mul_div_cancel_right₀ _ ht',
    Real.logb_rpow (by norm_num) (by norm_num)]
  ring

/-- Claim C2, witness: the round-trip law at the concrete empirical imager
imF (zero point 25 in filter F), magnitude 20, exposure time 100 s. -/
theorem mag_to_counts_round_trip_witness :
    (25 : ℝ) - 2.5 * Real.logb 10 (imF.mag_to_counts 20 "F" 100 / 100) = 20 := by
  have h := mag_to_counts_round_trip imF (fun _ => 25) "F" 20 100 rfl
    (by decide) (by norm_num)
  simpa using h

/-- Claim C4: in empirical mode mag_to_counts returns exactly
10^(0.4 (zpt_inst - mag)) * exptime; in particular the imager with
zpt_inst F = 25 maps magnitude 25 at 100 s to exactly 100 counts. -/
theorem mag_to_counts_empirical :
    (∀ (im : ArtImager) (z : String → ℝ) (mag exptime : ℝ) (bandpass : String),
      im.zpt_inst = some z →
        im.mag_to_counts mag bandpass exptime
          = (10 : ℝ) ^ (0.4 * (z bandpass - mag)) * exptime)
    ∧ imF.mag_to_counts 25 "F" 100 = 100 := by
  constructor
  · intro im z mag exptime bandpass hz
    simp only [ArtImager.mag_to_counts, hz]
  · show imF.mag_to_counts 25 "F" 100 = 100
    simp only [ArtImager.mag_to_counts, imF]
    norm_num

/-- Claim C4, witness: the empirical formula applied at the concrete imager
imF, magnitude 20, exposure time 100 s. -/
theorem mag_to_counts_empirical_witness :
    imF.mag_to_counts 20 "F" 100 = (10 : ℝ) ^ ((0.4 : ℝ) * (25 - 20)) * 100 := by
  have h := mag_to_counts_empirical.1 imF (fun _ => 25) 20 100 "F" rfl
  simpa using h

/-- Claim C5: every artificial observation's variance image equals the
raw-count image plus (read_noise / gain)^2 at every pixel (and shares its
shape); in particular with read_noise = 0 and gain = 1 the variance image
equals the raw-count image exactly. -/
theorem var_image_eq_raw_plus_read (im : ArtImager) (rng : NoiseOracle)
    (source : Source) (bandpass : String) (exptime : ℝ) (sky_sb : Option ℝ)
    (psf : Option Image) (zpt : ℝ) (mask : Option (List Bool))
    (bkg : Option Image) (bkg_ori : Option (ℕ × ℕ)) :
    ((im.observe_run rng source bandpass exptime sky_sb psf zpt mask bkg bkg_ori).1).var_image.rows
        = ((im.observe_run rng source bandpass exptime sky_sb psf zpt mask bkg bkg_ori).1).raw_counts.rows
    ∧ ((im.observe_run rng source bandpass exptime sky_sb psf zpt mask bkg bkg_ori).1).var_image.cols
        = ((im.observe_run rng source bandpass exptime sky_sb psf zpt mask bkg bkg_ori).1).raw_counts.cols
    ∧ (∀ r c,
        ((im.observe_run rng source bandpass exptime sky_sb psf zpt mask bkg bkg_ori).1).var_image.data r c
          = ((im.observe_run rng source bandpass exptime sky_sb psf zpt mask bkg bkg_ori).1).raw_counts.data r c
            + (im.read_noise / im.gain) ^ 2)
    ∧ (im.read_noise = 0 → im.gain = 1 →
        ∀ r c,
          ((im.observe_run rng source bandpass exptime sky_sb psf zpt mask bkg bkg_ori).1).var_image.data r c
            = ((im.observe_run rng source bandpass exptime sky_sb psf zpt mask bkg bkg_ori).1).raw_counts.data r c) := by
  cases sky_sb <;>
    refine ⟨rfl, rfl, fun r c => rfl, fun h0 h1 r c => ?_⟩ <;>
    simp [ArtImager.observe_run, ArtImager.noise_tail, h0, h1]

/-- Claim C5, witness: at the concrete imager imF (read noise 0, gain 1),
oracle rngId and source srcEmpty, the variance image equals the raw-count
image at pixel (0, 0). -/
theorem var_image_eq_raw_plus_read_witness :
    ((imF.observe_run rngId srcEmpty "F" 1 none none 27 none none none).1).var_image.data 0 0
      = ((imF.observe_run rngId srcEmpty "F" 1 none none 27 none none none).1).raw_counts.data 0 0 := by
  have h := var_image_eq_raw_plus_read imF rngId srcEmpty "F" 1 none none 27
    none none none
  exact h.2.2.2 rfl rfl 0 0

/-- Claim C6: a call of the artificial pipeline's observe with no sky
surface brightness raises nothing on account of the missing sky — once its
two checks pass it returns the observation — whose sky counts per pixel
are zero, whose magnitude-error field is none rather than computed, and
whose source-count image is the pre-noise pipeline image with every
negative pixel clipped to zero before noise synthesis. -/
theorem observe_no_sky (im : ArtImager) (rng : NoiseOracle) (source : Source)
    (bandpass : String) (exptime : ℝ) (psf : Option Image) (zpt : ℝ)
    (mask : Option (List Bool)) (bkg : Option Image) (bkg_ori : Option (ℕ × ℕ))
    (hb : bandpass ∈ im.filters) :
    im.observe rng (PyVal.source source) bandpass exptime none psf zpt mask bkg bkg_ori
      = Except.ok (im.observe_run rng source bandpass exptime none psf zpt mask bkg bkg_ori)
    ∧ ((im.observe_run rng source bandpass exptime none psf zpt mask bkg bkg_ori).1).sky_counts = 0
    ∧ ((im.observe_run rng source bandpass exptime none psf zpt mask bkg bkg_ori).1).mag_error = none
    ∧ ∀ r c,
        ((im.observe_run rng source bandpass exptime none psf zpt mask bkg bkg_ori).1).src_counts.data r c
          = if ((im.pre_noise_counts source bandpass exptime zpt mask psf bkg bkg_ori).1).data r c < 0
            then 0
            else ((im.pre_noise_counts source bandpass exptime zpt mask psf bkg bkg_ori).1).data r c := by
  exact ⟨by simp [ArtImager.observe, check_source, hb], rfl, rfl, fun r c => rfl⟩

/-- Claim C6, witness: the no-sky guarantees at the concrete imager imF,
oracle rngId and source srcEmpty, with the clip conjunct taken at pixel
(0, 0). -/
theorem observe_no_sky_witness :
    imF.observe rngId (PyVal.source srcEmpty) "F" 1 none none 27 none none none
      = Except.ok (imF.observe_run rngId srcEmpty "F" 1 none none 27 none none none)
    ∧ ((imF.observe_run rngId srcEmpty "F" 1 none none 27 none none none).1).sky_counts = 0
    ∧ ((imF.observe_run rngId srcEmpty "F" 1 none none 27 none none none).1).mag_error = none
    ∧ ((imF.observe_run rngId srcEmpty "F" 1 none none 27 none none none).1).src_counts.data 0 0
        = if ((imF.pre_noise_counts srcEmpty "F" 1 27 none none none none).1).data 0 0 < 0
          then 0
          else ((imF.pre_noise_counts srcEmpty "F" 1 27 none none none none).1).data 0 0 := by
  have h := observe_no_sky imF rngId srcEmpty "F" 1 none 27 none none none
    (by decide)
  exact ⟨h.1, h.2.1, h.2.2.1, h.2.2.2 0 0⟩

/-- A 1 x 1 background-file array holding the single value -1. -/
noncomputable def bkgNeg : Image :=
  { rows := 1, cols := 1, data := fun _ _ => -1 }

/-- Claim C10: with a sky surface brightness supplied, the pre-noise
source-count image goes into Poisson noise synthesis with no clipping —
the src_counts of the returned observation equals the pre-noise pipeline
image pixel for pixel — and it can hold negative values, as the concrete
call compositing a background file that holds -1 shows; the clip-to-zero
step runs only on the no-sky branch (claim C6's theorem). -/
theorem observe_with_sky_no_clip :
    (∀ (im : ArtImager) (rng : NoiseOracle) (source : Source)
      (bandpass : String) (exptime sb : ℝ) (psf : Option Image) (zpt : ℝ)
      (mask : Option (List Bool)) (bkg : Option Image) (bkg_ori : Option (ℕ × ℕ))
      (r c : ℕ),
      ((im.observe_run rng source bandpass exptime (some sb) psf zpt mask bkg bkg_ori).1).src_counts.data r c
        = ((im.pre_noise_counts source bandpass exptime zpt mask psf bkg bkg_ori).1).data r c)
    ∧ ((imF.observe_run rngId srcEmpty "F" 1 (some 25) none 27 none (some bkgNeg) none).1).src_counts.data 0 0
        < 0 := by
  constructor
  · intro im rng source bandpass exptime sb psf zpt mask bkg bkg_ori r c
    rfl
  · show ((imF.observe_run rngId srcEmpty "F" 1 (some 25) none 27 none (some bkgNeg) none).1).src_counts.data 0 0 < 0
    simp [ArtImager.observe_run, ArtImager.pre_noise_counts,
      ArtImager.inject_smooth_model, ArtImager.noise_tail, srcEmpty,
      inject_stars, maskFilter, apply_seeing, add_bkg_cutout, import_bkg,
      bkgNeg]

/-- The numpy shape of a modelled array: (rows, cols). -/
def Image.shape (img : Image) : ℕ × ℕ := (img.rows, img.cols)

/-- The arrays the noise and calibration tail produces keep the shape of the
source-count image it is given. -/
theorem noise_tail_shapes (im : ArtImager) (rng : NoiseOracle)
    (src_counts : Image) (sky_counts : ℝ) (bandpass : String)
    (exptime zpt : ℝ) (mag_error : Option (List ℝ)) :
    (im.noise_tail rng src_counts sky_counts bandpass exptime zpt mag_error).raw_counts.shape
        = src_counts.shape
    ∧ (im.noise_tail rng src_counts sky_counts bandpass exptime zpt mag_error).src_counts.shape
        = src_counts.shape
    ∧ (im.noise_tail rng src_counts sky_counts bandpass exptime zpt mag_error).image.shape
        = src_counts.shape
    ∧ (im.noise_tail rng src_counts sky_counts bandpass exptime zpt mag_error).var_image.shape
        = src_counts.shape := by
  by_cases h : 0 < im.read_noise <;>
    simp [ArtImager.noise_tail, Image.shape, h]

/-- The pre-noise pipeline image has xy_dim.2 rows and xy_dim.1 columns. -/
theorem pre_noise_counts_shape (im : ArtImager) (source : Source)
    (bandpass : String) (exptime zpt : ℝ) (mask : Option (List Bool))
    (psf : Option Image) (bkg : Option Image) (bkg_ori : Option (ℕ × ℕ)) :
    ((im.pre_noise_counts source bandpass exptime zpt mask psf bkg bkg_ori).1).shape
      = (source.xy_dim.2, source.xy_dim.1) := by
  cases hb : bkg <;> cases hp : psf <;> cases hs : source.smooth_model <;>
    simp [ArtImager.pre_noise_counts, ArtImager.inject_smooth_model,
      apply_seeing, convolve_fft, add_bkg_cutout, import_bkg, inject_stars,
      Image.shape, hs]

/-- Claim C9, as amended: with xy_dim = (d0, d1) every 2-D array of the
pipeline has shape (d1, d0) — xy_dim transposed: d1 rows by d0 columns —
rather than (d0, d1): the rasterized image, the image after smooth-model
injection, after background compositing and after PSF convolution, and the
source-count, raw-count, calibrated and variance images of the artificial
result; the arrays therefore match xy_dim exactly only when d0 = d1.  (On
a non-square grid with a background file the code's (d0, d1) cutout slice
is rejected by numpy against the (d1, d0) image; the compositing conjunct
states the model's shape bookkeeping, which covers the square usage the
code supports.) -/
theorem pipeline_shapes_transposed :
    (∀ (x y : List ℚ) (s : List ℝ) (d0 d1 : ℕ) (mask : Option (List Bool)),
      (inject_stars x y s (d0, d1) mask).shape = (d1, d0))
    ∧ (∀ (im : ArtImager) (img : Image) (src : Source) (bandpass : String)
        (exptime zpt : ℝ),
        ((im.inject_smooth_model img src bandpass exptime zpt).1).shape = img.shape)
    ∧ (∀ (src temp : Image) (xy_dim : ℕ × ℕ) (ori : Option (ℕ × ℕ)),
        (add_bkg_cutout src temp xy_dim ori).shape = src.shape)
    ∧ (∀ (img : Image) (psf : Option Image),
        (apply_seeing img psf).shape = img.shape)
    ∧ ∀ (im : ArtImager) (rng : NoiseOracle) (source : Source)
        (bandpass : String) (exptime : ℝ) (sky_sb : Option ℝ)
        (psf : Option Image) (zpt : ℝ) (mask : Option (List Bool))
        (bkg : Option Image) (bkg_ori : Option (ℕ × ℕ)),
        ((im.observe_run rng source bandpass exptime sky_sb psf zpt mask bkg bkg_ori).1).src_counts.shape
            = (source.xy_dim.2, source.xy_dim.1)
          ∧ ((im.observe_run rng source bandpass exptime sky_sb psf zpt mask bkg bkg_ori).1).raw_counts.shape
            = (source.xy_dim.2, source.xy_dim.1)
          ∧ ((im.observe_run rng source bandpass exptime sky_sb psf zpt mask bkg bkg_ori).1).image.shape
            = (source.xy_dim.2, source.xy_dim.1)
          ∧ ((im.observe_run rng source bandpass exptime sky_sb psf zpt mask bkg bkg_ori).1).var_image.shape
            = (source.xy_dim.2, source.xy_dim.1) := by
  refine ⟨fun x y s d0 d1 mask => rfl, ?_, fun src temp xy_dim ori => rfl, ?_, ?_⟩
  · intro im img src bandpass exptime zpt
    cases hs : src.smooth_model <;>
      simp [ArtImager.inject_smooth_model, Image.shape, hs]
  · intro img psf
    cases psf <;> simp [apply_seeing, convolve_fft, Image.shape]
  · intro im rng source bandpass exptime sky_sb psf zpt mask bkg bkg_ori
    have hpn := pre_noise_counts_shape im source bandpass exptime zpt mask psf bkg bkg_ori
    cases sky_sb with
    | some sb =>
        have ht := noise_tail_shapes im rng
          ((im.pre_noise_counts source bandpass exptime zpt mask psf bkg bkg_ori).1)
          (im.sb_to_counts_per_pixel sb bandpass exptime source.pixel_scale)
          bandpass exptime zpt
          (some (((source.mags bandpass).map (fun m => im.mag_to_counts m bandpass exptime)).map
            (fun c => 2.5 * Real.logb 10 (1 +
              Real.sqrt (im.read_noise ^ 2
                + im.sb_to_counts_per_pixel sb bandpass exptime source.pixel_scale * im.gain
                + c * im.gain) / (c * im.gain)))))
        exact ⟨hpn ▸ ht.2.1, hpn ▸ ht.1, hpn ▸ ht.2.2.1, hpn ▸ ht.2.2.2⟩
    | none =>
        have hclip : (clip_neg ((im.pre_noise_counts source bandpass exptime zpt mask psf bkg bkg_ori).1)).shape
            = (source.xy_dim.2, source.xy_dim.1) := hpn
        have ht := noise_tail_shapes im rng
          (clip_neg ((im.pre_noise_counts source bandpass exptime zpt mask psf bkg bkg_ori).1))
          0 bandpass exptime zpt none
        exact ⟨hclip ▸ ht.2.1, hclip ▸ ht.1, hclip ▸ ht.2.2.1, hclip ▸ ht.2.2.2⟩

/-- Claim C9, counterexample: rasterizing onto xy_dim = (3, 5) yields an
array of numpy shape (5, 3) — 5 rows by 3 columns — not the claimed shape
(3, 5). -/
theorem inject_stars_shape_not_xy_dim :
    (inject_stars ([] : List ℚ) ([] : List ℚ) ([] : List ℝ) (3, 5) none).shape = (5, 3)
    ∧ (inject_stars ([] : List ℚ) ([] : List ℚ) ([] : List ℝ) (3, 5) none).shape ≠ (3, 5) := by
  exact ⟨rfl, by decide⟩

/-- A concrete Source carrying a smooth model whose amplitude parameter is
0, an integrated-magnitude accessor, and a mag_to_image_amplitude returning
image amplitude 5. -/
noncomputable def srcSM : Source :=
  { x := []
    y := []
    mags := fun _ => []
    xy_dim := (1, 1)
    pixel_scale := 1
    smooth_model := some { amplitude := 0, profile := fun a _ _ => a }
    sp := some (fun _ => 20)
    mag_to_image_amplitude := fun _ _ => (0, 5, "amplitude") }

/-- Claim C7, as amended: the pipelines leave every attribute of the
caller's Source unchanged except the smooth model's amplitude parameter,
which inject_smooth_model setattrs to the freshly computed amplitude — a
mutation of the caller-owned object.  A source with no smooth model is
returned entirely unchanged by both pipelines. -/
theorem observe_mutates_only_smooth_amplitude (source : Source)
    (bandpass : String) (psf : Option Image) (zpt : ℝ)
    (mask : Option (List Bool)) (im : ArtImager) (rng : NoiseOracle)
    (exptime : ℝ) (sky_sb : Option ℝ) (bkg : Option Image)
    (bkg_ori : Option (ℕ × ℕ)) :
    ((ideal_observe_run source bandpass psf zpt mask).2.x = source.x
      ∧ (ideal_observe_run source bandpass psf zpt mask).2.y = source.y
      ∧ (ideal_observe_run source bandpass psf zpt mask).2.mags = source.mags
      ∧ (ideal_observe_run source bandpass psf zpt mask).2.xy_dim = source.xy_dim
      ∧ (ideal_observe_run source bandpass psf zpt mask).2.pixel_scale = source.pixel_scale
      ∧ (ideal_observe_run source bandpass psf zpt mask).2.sp = source.sp
      ∧ (ideal_observe_run source bandpass psf zpt mask).2.mag_to_image_amplitude
          = source.mag_to_image_amplitude
      ∧ (ideal_observe_run source bandpass psf zpt mask).2.smooth_model.map SmoothModel.profile
          = source.smooth_model.map SmoothModel.profile)
    ∧ ((im.observe_run rng source bandpass exptime sky_sb psf zpt mask bkg bkg_ori).2.x = source.x
      ∧ (im.observe_run rng source bandpass exptime sky_sb psf zpt mask bkg bkg_ori).2.y = source.y
      ∧ (im.observe_run rng source bandpass exptime sky_sb psf zpt mask bkg bkg_ori).2.mags = source.mags
      ∧ (im.observe_run rng source bandpass exptime sky_sb psf zpt mask bkg bkg_ori).2.xy_dim = source.xy_dim
      ∧ (im.observe_run rng source bandpass exptime sky_sb psf zpt mask bkg bkg_ori).2.pixel_scale
          = source.pixel_scale
      ∧ (im.observe_run rng source bandpass exptime sky_sb psf zpt mask bkg bkg_ori).2.sp = source.sp
      ∧ (im.observe_run rng source bandpass exptime sky_sb psf zpt mask bkg bkg_ori).2.mag_to_image_amplitude
          = source.mag_to_image_amplitude
      ∧ (im.observe_run rng source bandpass exptime sky_sb psf zpt mask bkg bkg_ori).2.smooth_model.map SmoothModel.profile
          = source.smooth_model.map SmoothModel.profile)
    ∧ (source.smooth_model = none →
        (ideal_observe_run source bandpass psf zpt mask).2 = source
          ∧ (im.observe_run rng source bandpass exptime sky_sb psf zpt mask bkg bkg_ori).2 = source) := by
  refine ⟨?_, ?_, fun hnone => ⟨?_, ?_⟩⟩
  · cases hs : source.smooth_model <;>
      simp [ideal_observe_run, ideal_inject_smooth_model, hs]
  · cases sky_sb <;> cases hs : source.smooth_model <;>
      simp [ArtImager.observe_run, ArtImager.pre_noise_counts,
        ArtImager.inject_smooth_model, hs]
  · simp [ideal_observe_run, ideal_inject_smooth_model, hnone]
  · cases sky_sb <;>
      simp [ArtImager.observe_run, ArtImager.pre_noise_counts,
        ArtImager.inject_smooth_model, hnone]

/-- Claim C7, witness: the source srcEmpty, which has no smooth model,
comes back entirely unchanged from both the ideal and the artificial
pipeline. -/
theorem observe_mutates_only_smooth_amplitude_witness :
    (ideal_observe_run srcEmpty "F" none 27 none).2 = srcEmpty
    ∧ (imF.observe_run rngId srcEmpty "F" 1 none none 27 none none none).2 = srcEmpty := by
  have h := observe_mutates_only_smooth_amplitude srcEmpty "F" none 27 none
    imF rngId 1 none none none
  exact h.2.2 rfl

/-- Claim C7, counterexample: observing srcSM through the ideal pipeline
sets the smooth model's amplitude parameter to the computed image amplitude
5, where the caller's value was 0 — the call mutates the caller-owned
Source's smooth model rather than only reading it. -/
theorem ideal_observe_mutates_smooth_model :
    (IdealImager.observe (PyVal.source srcSM) "F" none 27 none).toOption.map
        (fun p => p.2.smooth_model.map SmoothModel.amplitude)
      = some (some 5)
    ∧ srcSM.smooth_model.map SmoothModel.amplitude = some 0
    ∧ (5 : ℝ) ≠ 0 := by
  refine ⟨rfl, rfl, by norm_num⟩

/-- Claim C8, as amended: with a sky surface brightness supplied, the
magnitude-error estimate attached to the observation is the per-star array
2.5 log10(1 + n_s), n_s = sqrt(read_noise^2 + skyCounts gain + c gain) /
(c gain), where c ranges over the per-star counts array — mag_to_counts of
the source's per-band magnitudes — not over per-pixel values of the
pre-noise source-count image. -/
theorem mag_error_from_star_counts (im : ArtImager) (rng : NoiseOracle)
    (source : Source) (bandpass : String) (exptime sb : ℝ)
    (psf : Option Image) (zpt : ℝ) (mask : Option (List Bool))
    (bkg : Option Image) (bkg_ori : Option (ℕ × ℕ)) :
    ((im.observe_run rng source bandpass exptime (some sb) psf zpt mask bkg bkg_ori).1).mag_error
      = some (((source.mags bandpass).map (fun m => im.mag_to_counts m bandpass exptime)).map
          (fun c => 2.5 * Real.logb 10 (1 +
            Real.sqrt (im.read_noise ^ 2
              + im.sb_to_counts_per_pixel sb bandpass exptime source.pixel_scale * im.gain
              + c * im.gain) / (c * im.gain)))) := rfl

/-- Two stars of magnitude 25 in filter F, both at the interior pixel
(1, 1) of a 3 x 3 grid; no smooth model. -/
noncomputable def srcTwoStars : Source :=
  { x := [1, 1]
    y := [1, 1]
    mags := fun _ => [25, 25]
    xy_dim := (3, 3)
    pixel_scale := 1
    smooth_model := none
    sp := none
    mag_to_image_amplitude := fun _ _ => (0, 0, "amplitude") }

/-- The artificial observation of srcTwoStars through imF at 1 s exposure
with sky surface brightness 25: each star contributes 1 count, so the
pre-noise source-count image holds 2 at pixel (1, 1), while the per-star
counts array is [1, 1]; the sky is 1 count per pixel. -/
noncomputable def obsC8 : ArtObservation :=
  (imF.observe_run rngId srcTwoStars "F" 1 (some 25) none 27 none none none).1

/-- The two interior values claim C8 confuses are genuinely different reals:
the code's per-star value sits at 1 + sqrt 2, the per-pixel value at
1 + sqrt 3 / 2, and log base 10 is strictly monotone. -/
theorem logb_star_ne_logb_pixel :
    2.5 * Real.logb 10 (1 + Real.sqrt 2)
      ≠ 2.5 * Real.logb 10 (1 + Real.sqrt 3 / 2) := by
  have h2 : (1 : ℝ) < Real.sqrt 2 := by
    rw [show (1 : ℝ) = Real.sqrt 1 from Real.sqrt_one.symm]
    exact Real.sqrt_lt_sqrt (by norm_num) (by norm_num)
  have h4 : Real.sqrt 4 = 2 := by
    rw [show (4 : ℝ) = 2 ^ 2 by norm_num, Real.sqrt_sq (by norm_num)]
  have h3 : Real.sqrt 3 < 2 := by
    have h34 := Real.sqrt_lt_sqrt (by norm_num : (0 : ℝ) ≤ 3)
      (by norm_num : (3 : ℝ) < 4)
    rwa [h4] at h34
  have hB : Real.sqrt 3 / 2 < Real.sqrt 2 := by linarith
  have hpos : (0 : ℝ) < 1 + Real.sqrt 3 / 2 := by positivity
  have hlt := Real.logb_lt_logb (b := 10) (by norm_num) hpos
    (by linarith : 1 + Real.sqrt 3 / 2 < 1 + Real.sqrt 2)
  have : 2.5 * Real.logb 10 (1 + Real.sqrt 3 / 2)
      < 2.5 * Real.logb 10 (1 + Real.sqrt 2) := by linarith
  exact ne_of_gt this

/-- Claim C8, counterexample: for the observation obsC8 both stars lie in
the interior pixel (1, 1), so the claim — n_s built from the per-pixel
pre-noise source-count value — predicts the magnitude-error array whose two
entries both use sourceCounts = obsC8.src_counts.data 1 1 = 2; the code
instead uses the per-star counts (1 each), and the returned array differs
from the claim's prediction. -/
theorem mag_error_not_per_pixel :
    obsC8.mag_error
      ≠ some
        [2.5 * Real.logb 10 (1 +
            Real.sqrt (imF.read_noise ^ 2 + obsC8.sky_counts * imF.gain
              + obsC8.src_counts.data 1 1 * imF.gain)
            / (obsC8.src_counts.data 1 1 * imF.gain)),
         2.5 * Real.logb 10 (1 +
            Real.sqrt (imF.read_noise ^ 2 + obsC8.sky_counts * imF.gain
              + obsC8.src_counts.data 1 1 * imF.gain)
            / (obsC8.src_counts.data 1 1 * imF.gain))] := by
  have hc : imF.mag_to_counts 25 "F" 1 = 1 := by
    simp only [ArtImager.mag_to_counts, imF]
    norm_num
  have hskyE : imF.sb_to_counts_per_pixel 25 "F" 1 srcTwoStars.pixel_scale = 1 := by
    simp only [ArtImager.sb_to_counts_per_pixel, imF]
    norm_num
  have hsky : obsC8.sky_counts = 1 := hskyE
  have hrn : imF.read_noise = 0 := rfl
  have hg : imF.gain = 1 := rfl
  have hbin : binIndex (1 : ℚ) 3 = some 1 := by
    have h := binIndex_natCast 3 1 (by norm_num)
    simpa using h
  have hS : obsC8.src_counts.data 1 1 = 2 := by
    simp [obsC8, ArtImager.observe_run, ArtImager.pre_noise_counts,
      ArtImager.inject_smooth_model, ArtImager.noise_tail, srcTwoStars,
      inject_stars, maskFilter, apply_seeing, hbin, hc]
    norm_num
  have hme : obsC8.mag_error
      = some
        [2.5 * Real.logb 10 (1 +
            Real.sqrt (imF.read_noise ^ 2
              + imF.sb_to_counts_per_pixel 25 "F" 1 srcTwoStars.pixel_scale * imF.gain
              + imF.mag_to_counts 25 "F" 1 * imF.gain)
            / (imF.mag_to_counts 25 "F" 1 * imF.gain)),
         2.5 * Real.logb 10 (1 +
            Real.sqrt (imF.read_noise ^ 2
              + imF.sb_to_counts_per_pixel 25 "F" 1 srcTwoStars.pixel_scale * imF.gain
              + imF.mag_to_counts 25 "F" 1 * imF.gain)
            / (imF.mag_to_counts 25 "F" 1 * imF.gain))] := rfl
  rw [hme, hskyE, hc, hsky, hS, hrn, hg]
  have e1 : (0 : ℝ) ^ 2 + 1 * 1 + 1 * 1 = 2 := by norm_num
  have e2 : (0 : ℝ) ^ 2 + 1 * 1 + 2 * 1 = 3 := by norm_num
  simp only [e1, e2]
  have e3 : (1 : ℝ) * 1 = 1 := by norm_num
  have e4 : (2 : ℝ) * 1 = 2 := by norm_num
  simp only [e3, e4, div_one]
  simp only [ne_eq, Option.some.injEq, List.cons.injEq, and_true, not_and]
  intro h1 _
  exact logb_star_ne_logb_pixel h1

end ArtPop
